import Mathlib

/-!
Shallow embedding of the OmniVision ov9282 camera sensor driver
(src/ov9282.c, src/duzenle.c): register-map constants, the mode catalog,
the power sequencer, and the control/bus operations, together with proofs
of the specified properties.

Machine integers of the source (u8/u16/u32/u64) are embedded as `Nat`;
none of the verified properties involve overflow, as every constant and
arithmetic result stays far below the corresponding bound.
-/

namespace OV9282

/-! ## Register-map constants (src/ov9282.c lines 19-56, identical in src/duzenle.c) -/

/-- Streaming mode-select register (src/ov9282.c line 20). -/
def OV9282_REG_MODE_SELECT : Nat := 0x0100

/-- Standby value for mode-select (src/ov9282.c line 21). -/
def OV9282_MODE_STANDBY : Nat := 0x00

/-- Streaming value for mode-select (src/ov9282.c line 22). -/
def OV9282_MODE_STREAMING : Nat := 0x01

/-- Lines-per-frame register (src/ov9282.c line 25). -/
def OV9282_REG_LPFR : Nat := 0x380e

/-- Chip-identity register (src/ov9282.c line 28). -/
def OV9282_REG_ID : Nat := 0x300a

/-- Expected chip-identity value (src/ov9282.c line 29). -/
def OV9282_ID : Nat := 0x9281

/-- Exposure register (src/ov9282.c line 32). -/
def OV9282_REG_EXPOSURE : Nat := 0x3500

/-- Minimum exposure (src/ov9282.c line 33). -/
def OV9282_EXPOSURE_MIN : Nat := 1

/-- Exposure offset: lines reserved for readout overhead (src/ov9282.c line 34). -/
def OV9282_EXPOSURE_OFFSET : Nat := 12

/-- Exposure step (src/ov9282.c line 35). -/
def OV9282_EXPOSURE_STEP : Nat := 1

/-- Default exposure (src/ov9282.c line 36). -/
def OV9282_EXPOSURE_DEFAULT : Nat := 0x0282

/-- Analog gain register (src/ov9282.c line 39). -/
def OV9282_REG_AGAIN : Nat := 0x3509

/-- Minimum analog gain (src/ov9282.c line 40). -/
def OV9282_AGAIN_MIN : Nat := 0x10

/-- Maximum analog gain (src/ov9282.c line 41). -/
def OV9282_AGAIN_MAX : Nat := 0xff

/-- Analog gain step (src/ov9282.c line 42). -/
def OV9282_AGAIN_STEP : Nat := 1

/-- Default analog gain (src/ov9282.c line 43). -/
def OV9282_AGAIN_DEFAULT : Nat := 0x10

/-- Group hold register (src/ov9282.c line 46). -/
def OV9282_REG_HOLD : Nat := 0x3308

/-- Input clock rate (src/ov9282.c line 49). -/
def OV9282_INCLK_RATE : Nat := 24000000

/-- CSI2 link frequency (src/ov9282.c line 52). -/
def OV9282_LINK_FREQ : Nat := 400000000

/-- Lowest legal register address (src/ov9282.c line 55). -/
def OV9282_REG_MIN : Nat := 0x00

/-- Highest legal register address (src/ov9282.c line 56). -/
def OV9282_REG_MAX : Nat := 0xfffff

/-- Media-bus format code for 10-bit greyscale, the value of the kernel
constant MEDIA_BUS_FMT_Y10_1X10 used at src/ov9282.c line 263. -/
def MEDIA_BUS_FMT_Y10_1X10 : Nat := 0x202b

/-- An address is legal when inside [OV9282_REG_MIN, OV9282_REG_MAX]
(spec section 4.1 and the constants at src/ov9282.c lines 55-56). -/
def valid_addr (a : Nat) : Bool :=
  decide (OV9282_REG_MIN ≤ a ∧ a ≤ OV9282_REG_MAX)

/-! ## Data model (src/ov9282.c lines 58-144) -/

/-- struct ov9282_reg (src/ov9282.c lines 63-66): one register entry,
16-bit address and 8-bit value. -/
structure ov9282_reg where
  address : Nat
  val : Nat
deriving Repr, DecidableEq

/-- struct ov9282_mode (src/ov9282.c lines 91-102); the register list is
embedded directly as the list of its entries, so num_of_regs is its length. -/
structure ov9282_mode where
  width : Nat
  height : Nat
  code : Nat
  hblank : Nat
  vblank : Nat
  vblank_min : Nat
  vblank_max : Nat
  pclk : Nat
  link_freq_idx : Nat
  reg_list : List ov9282_reg
deriving Repr, DecidableEq

set_option maxHeartbeats 1000000 in
/-- mode_1280x720_regs (src/ov9282.c lines 151-251): the register burst of
the single supported mode, in source order. -/
def mode_1280x720_regs : List ov9282_reg := [
  ov9282_reg.mk 0x0302 0x32,
  ov9282_reg.mk 0x030d 0x50,
  ov9282_reg.mk 0x030e 0x02,
  ov9282_reg.mk 0x3001 0x00,
  ov9282_reg.mk 0x3004 0x00,
  ov9282_reg.mk 0x3005 0x00,
  ov9282_reg.mk 0x3006 0x04,
  ov9282_reg.mk 0x3011 0x0a,
  ov9282_reg.mk 0x3013 0x18,
  ov9282_reg.mk 0x301c 0xf0,
  ov9282_reg.mk 0x3022 0x01,
  ov9282_reg.mk 0x3030 0x10,
  ov9282_reg.mk 0x3039 0x32,
  ov9282_reg.mk 0x303a 0x00,
  ov9282_reg.mk 0x3500 0x00,
  ov9282_reg.mk 0x3501 0x5f,
  ov9282_reg.mk 0x3502 0x1e,
  ov9282_reg.mk 0x3503 0x08,
  ov9282_reg.mk 0x3505 0x8c,
  ov9282_reg.mk 0x3507 0x03,
  ov9282_reg.mk 0x3508 0x00,
  ov9282_reg.mk 0x3509 0x10,
  ov9282_reg.mk 0x3610 0x80,
  ov9282_reg.mk 0x3611 0xa0,
  ov9282_reg.mk 0x3620 0x6e,
  ov9282_reg.mk 0x3632 0x56,
  ov9282_reg.mk 0x3633 0x78,
  ov9282_reg.mk 0x3666 0x00,
  ov9282_reg.mk 0x366f 0x5a,
  ov9282_reg.mk 0x3680 0x84,
  ov9282_reg.mk 0x3712 0x80,
  ov9282_reg.mk 0x372d 0x22,
  ov9282_reg.mk 0x3731 0x80,
  ov9282_reg.mk 0x3732 0x30,
  ov9282_reg.mk 0x3778 0x00,
  ov9282_reg.mk 0x377d 0x22,
  ov9282_reg.mk 0x3788 0x02,
  ov9282_reg.mk 0x3789 0xa4,
  ov9282_reg.mk 0x378a 0x00,
  ov9282_reg.mk 0x378b 0x4a,
  ov9282_reg.mk 0x3799 0x20,
  ov9282_reg.mk 0x3800 0x00,
  ov9282_reg.mk 0x3801 0x00,
  ov9282_reg.mk 0x3802 0x00,
  ov9282_reg.mk 0x3803 0x00,
  ov9282_reg.mk 0x3804 0x05,
  ov9282_reg.mk 0x3805 0x0f,
  ov9282_reg.mk 0x3806 0x02,
  ov9282_reg.mk 0x3807 0xdf,
  ov9282_reg.mk 0x3808 0x05,
  ov9282_reg.mk 0x3809 0x00,
  ov9282_reg.mk 0x380a 0x02,
  ov9282_reg.mk 0x380b 0xd0,
  ov9282_reg.mk 0x380c 0x05,
  ov9282_reg.mk 0x380d 0xfa,
  ov9282_reg.mk 0x380e 0x06,
  ov9282_reg.mk 0x380f 0xce,
  ov9282_reg.mk 0x3810 0x00,
  ov9282_reg.mk 0x3811 0x08,
  ov9282_reg.mk 0x3812 0x00,
  ov9282_reg.mk 0x3813 0x08,
  ov9282_reg.mk 0x3814 0x11,
  ov9282_reg.mk 0x3815 0x11,
  ov9282_reg.mk 0x3820 0x3c,
  ov9282_reg.mk 0x3821 0x84,
  ov9282_reg.mk 0x3881 0x42,
  ov9282_reg.mk 0x38a8 0x02,
  ov9282_reg.mk 0x38a9 0x80,
  ov9282_reg.mk 0x38b1 0x00,
  ov9282_reg.mk 0x38c4 0x00,
  ov9282_reg.mk 0x38c5 0xc0,
  ov9282_reg.mk 0x38c6 0x04,
  ov9282_reg.mk 0x38c7 0x80,
  ov9282_reg.mk 0x3920 0xff,
  ov9282_reg.mk 0x4003 0x40,
  ov9282_reg.mk 0x4008 0x02,
  ov9282_reg.mk 0x4009 0x05,
  ov9282_reg.mk 0x400c 0x00,
  ov9282_reg.mk 0x400d 0x03,
  ov9282_reg.mk 0x4010 0x40,
  ov9282_reg.mk 0x4043 0x40,
  ov9282_reg.mk 0x4307 0x30,
  ov9282_reg.mk 0x4317 0x00,
  ov9282_reg.mk 0x4501 0x00,
  ov9282_reg.mk 0x4507 0x00,
  ov9282_reg.mk 0x4509 0x80,
  ov9282_reg.mk 0x450a 0x08,
  ov9282_reg.mk 0x4601 0x04,
  ov9282_reg.mk 0x470f 0x00,
  ov9282_reg.mk 0x4f07 0x00,
  ov9282_reg.mk 0x4800 0x20,
  ov9282_reg.mk 0x5000 0x9f,
  ov9282_reg.mk 0x5001 0x00,
  ov9282_reg.mk 0x5e00 0x00,
  ov9282_reg.mk 0x5d00 0x07,
  ov9282_reg.mk 0x5d01 0x00,
  ov9282_reg.mk 0x0101 0x01,
  ov9282_reg.mk 0x1000 0x03,
  ov9282_reg.mk 0x5a08 0x84
]

/-- supported_mode (src/ov9282.c lines 254-268): the single supported
1280x720 sensor mode. -/
def supported_mode : ov9282_mode :=
  { width := 1280
    height := 720
    hblank := 250
    vblank := 1022
    vblank_min := 151
    vblank_max := 51540
    pclk := 160000000
    link_freq_idx := 0
    code := MEDIA_BUS_FMT_Y10_1X10
    reg_list := mode_1280x720_regs }

/-- The mode catalog: the source defines exactly one mode (src/ov9282.c
line 254, "Supported sensor mode configurations"). -/
def mode_catalog : List ov9282_mode := [supported_mode]

/-! ## Error taxonomy (spec section 7) -/

/-- The error taxonomy of spec section 7.  `PartialBurstFailure` carries
last_good_index, which is -1 when the very first entry fails, so it is an
integer. -/
inductive SensorErr where
  | BusError
  | InvalidAddress
  | InvalidValue
  | IdentityMismatch (expected actual : Nat)
  | PartialBurstFailure (last_good_index : Int)
  | ControlCommitFailed
  | UnsupportedMode
  | OutOfRange
deriving Repr, DecidableEq

/-! ## Register access protocol: write_burst

The body of `write_burst` is not under src/: src/ov9282.c only declares the
burst data (`struct ov9282_reg_list`, lines 73-76) and the burst itself.
The bus is modelled as a fault oracle `fails : Nat → Bool` telling whether
the k-th write attempt of the burst fails on the transport. -/

/-- Modelled from the spec: the body of `write_burst` (spec section 4.1) is
missing from src/ (src/ov9282.c only declares `ov9282_reg_list`).  Applies
the remaining entries in order starting at attempt index k; returns the
list of attempted writes in order, and the result.  On the first failing
attempt it stops immediately with `PartialBurstFailure{last_good_index}`;
no rollback is attempted. -/
def write_burst_from (fails : Nat → Bool) :
    Nat → List ov9282_reg → List ov9282_reg × Except SensorErr Unit
  | _, [] => ([], Except.ok ())
  | k, e :: rest =>
    if fails k then
      ([e], Except.error (SensorErr.PartialBurstFailure ((k : Int) - 1)))
    else
      let p := write_burst_from fails (k + 1) rest
      (e :: p.1, p.2)

/-- Modelled from the spec: `write_burst(entries)` of spec section 4.1.
The first component is the sequence of writes attempted on the bus, in
order; the second is the returned result. -/
def write_burst (fails : Nat → Bool) (entries : List ov9282_reg) :
    List ov9282_reg × Except SensorErr Unit :=
  write_burst_from fails 0 entries

/-! ## Control surface: group-hold commit (spec section 4.3)

The commit bracket is not under src/ either: src/ov9282.c only defines the
hold register constant (line 46).  The bracket is: assert hold (write 1),
write exposure register(s), write gain register, release hold (write 0);
on any failure the hold is still released best-effort and the error is
reported as ControlCommitFailed. -/

/-- Modelled from the spec: the group-hold commit bracket of spec section
4.3; only the constant OV9282_REG_HOLD (src/ov9282.c line 46) is in src/.
`fails k` tells whether the k-th write attempt of the bracket fails.  The
first component is the sequence of writes attempted on the bus as
(address, value) pairs, in order; the second is the returned result.  A
failure of the assert, exposure or gain write is followed by a best-effort
release (whose own outcome is ignored); a failure of the release itself is
also reported as ControlCommitFailed. -/
def group_hold_commit (fails : Nat → Bool) (exposure gain : Nat) :
    List (Nat × Nat) × Except SensorErr Unit :=
  if fails 0 then
    ([(OV9282_REG_HOLD, 1), (OV9282_REG_HOLD, 0)],
     Except.error SensorErr.ControlCommitFailed)
  else if fails 1 then
    ([(OV9282_REG_HOLD, 1), (OV9282_REG_EXPOSURE, exposure), (OV9282_REG_HOLD, 0)],
     Except.error SensorErr.ControlCommitFailed)
  else if fails 2 then
    ([(OV9282_REG_HOLD, 1), (OV9282_REG_EXPOSURE, exposure),
      (OV9282_REG_AGAIN, gain), (OV9282_REG_HOLD, 0)],
     Except.error SensorErr.ControlCommitFailed)
  else if fails 3 then
    ([(OV9282_REG_HOLD, 1), (OV9282_REG_EXPOSURE, exposure),
      (OV9282_REG_AGAIN, gain), (OV9282_REG_HOLD, 0)],
     Except.error SensorErr.ControlCommitFailed)
  else
    ([(OV9282_REG_HOLD, 1), (OV9282_REG_EXPOSURE, exposure),
      (OV9282_REG_AGAIN, gain), (OV9282_REG_HOLD, 0)],
     Except.ok ())

/-- Number of hold-release writes (value 0 to OV9282_REG_HOLD) in a bus
trace. -/
def hold_release_count (tr : List (Nat × Nat)) : Nat :=
  (tr.filter (fun w => w.1 == OV9282_REG_HOLD && w.2 == 0)).length

/-! ## Power and streaming sequencer (src/ov9282.c lines 317-359, spec
section 4.4) -/

/-- The power/streaming state machine's states (spec section 4.4). -/
inductive PowerState where
  | Off
  | PoweredUnverified
  | PoweredVerified
  | Standby
  | Streaming
deriving Repr, DecidableEq

/-- One externally visible step of ov9282_power_on (src/ov9282.c lines
317-341): the two usleep_range(400, 600) settle delays and the
clk_prepare_enable call. -/
inductive PowerAction where
  | settle_delay
  | clk_enable
deriving Repr, DecidableEq

/-- Outcome of a power-on run: the actions attempted in order, the
resulting power state, whether the input clock was left enabled, and the
C return value. -/
structure PowerOnResult where
  actions : List PowerAction
  state : PowerState
  clk_enabled : Bool
  ret : Int
deriving Repr, DecidableEq

/-- ov9282_power_on (src/ov9282.c lines 317-341): usleep_range(400, 600),
then clk_prepare_enable(ov9282->inclk), then usleep_range(400, 600).
`clk_ret` is clk_prepare_enable's return value (0 on success); on failure
the source jumps to error_reset and returns ret with no further action,
and clk_prepare_enable leaves the clock disabled (its kernel contract), so
the device stays Off.  On success the sequencer reaches PoweredUnverified
(spec section 4.4). -/
def ov9282_power_on (clk_ret : Int) : PowerOnResult :=
  if clk_ret = 0 then
    { actions := [PowerAction.settle_delay, PowerAction.clk_enable,
                  PowerAction.settle_delay]
      state := PowerState.PoweredUnverified
      clk_enabled := true
      ret := 0 }
  else
    { actions := [PowerAction.settle_delay, PowerAction.clk_enable]
      state := PowerState.Off
      clk_enabled := false
      ret := clk_ret }

/-- Outcome of a power-off run. -/
structure PowerOffResult where
  state : PowerState
  clk_enabled : Bool
  ret : Int
deriving Repr, DecidableEq

/-- ov9282_power_off (src/ov9282.c lines 349-359): unconditionally calls
clk_disable_unprepare(ov9282->inclk) (which returns void; `clk_off_ok`
models its best-effort hardware outcome, which the source cannot and does
not inspect) and returns 0.  It runs from any prior state and leaves the
device Off. -/
def ov9282_power_off (_s : PowerState) (_clk_off_ok : Bool) : PowerOffResult :=
  { state := PowerState.Off
    clk_enabled := false
    ret := 0 }

/-- Modelled from the spec: ov9282_detect is called at src/duzenle.c line
284 but its body is not under src/; modelled from spec section 4.4's
detect_and_verify.  `actual` is the value read from the identity register;
it is matched against OV9282_ID.  Returns the resulting power state
(starting from PoweredUnverified) and the result. -/
def detect_and_verify (actual : Nat) : PowerState × Except SensorErr Unit :=
  if actual = OV9282_ID then
    (PowerState.PoweredVerified, Except.ok ())
  else
    (PowerState.PoweredUnverified,
     Except.error (SensorErr.IdentityMismatch OV9282_ID actual))

/-! ## Sensor state and control surface (spec sections 3 and 4.3) -/

/-- SensorState (spec section 3; fields vblank and cur_mode of struct
ov9282, src/ov9282.c lines 140-141, plus the cached control values). -/
structure SensorState where
  cur_mode : ov9282_mode
  vblank : Nat
  exposure : Nat
  gain : Nat
deriving Repr, DecidableEq

/-- The SensorState vblank-in-bounds invariant (spec section 3): vblank is
constrained to [cur_mode.vblank_min, cur_mode.vblank_max]. -/
def vblank_in_bounds (s : SensorState) : Prop :=
  s.cur_mode.vblank_min ≤ s.vblank ∧ s.vblank ≤ s.cur_mode.vblank_max

/-- The exposure maximum derived from the current vblank (spec section
4.3): current_vblank - OV9282_EXPOSURE_OFFSET (src/ov9282.c line 34). -/
def exposure_max (vblank : Nat) : Nat := vblank - OV9282_EXPOSURE_OFFSET

/-- The exposure range [min_exposure, current_vblank - exposure_offset]
(spec section 4.3), as (low, high). -/
def exposure_range (s : SensorState) : Nat × Nat :=
  (OV9282_EXPOSURE_MIN, exposure_max s.vblank)

/-- Modelled from the spec: the vblank control-set path (spec section 4.3)
is not under src/ (only the constants and struct fields are).  A value in
[cur_mode.vblank_min, cur_mode.vblank_max] is accepted and triggers the
exposure-range recomputation, clamping down a cached exposure that now
exceeds the new maximum; a value outside the range is rejected with
OutOfRange before any bus access. -/
def set_vblank (s : SensorState) (v : Nat) : Except SensorErr SensorState :=
  if s.cur_mode.vblank_min ≤ v ∧ v ≤ s.cur_mode.vblank_max then
    Except.ok { s with vblank := v, exposure := min s.exposure (exposure_max v) }
  else
    Except.error SensorErr.OutOfRange

/-- Modelled from the spec: the exposure control-set path (spec section
4.3) is not under src/.  A requested exposure is clamped into
[OV9282_EXPOSURE_MIN, exposure_max s.vblank]; it never errors. -/
def set_exposure (s : SensorState) (e : Nat) : Except SensorErr SensorState :=
  Except.ok { s with
    exposure := min (max e OV9282_EXPOSURE_MIN) (exposure_max s.vblank) }

/-- The sensor state established by ov9282_probe before control
initialization (src/duzenle.c lines 290-292): cur_mode = &supported_mode
and vblank = cur_mode->vblank; the cached exposure and gain start at the
compile-time defaults (src/ov9282.c lines 36 and 43). -/
def probe_init_state : SensorState :=
  { cur_mode := supported_mode
    vblank := supported_mode.vblank
    exposure := OV9282_EXPOSURE_DEFAULT
    gain := OV9282_AGAIN_DEFAULT }

/-! ## Theorems for the claims -/

/-- C3: the program's register map equals, bit-exactly, the advertised
one: mode-select at 0x0100 with values 0x00 (standby) and 0x01
(streaming), lines-per-frame at 0x380e, identity at 0x300a, exposure at
0x3500, analog gain at 0x3509 with range 0x10 to 0xff, group-hold at
0x3308, and an address is legal exactly when it lies in [0x00, 0xfffff]. -/
theorem C3_register_map_bit_exact :
    OV9282_REG_MODE_SELECT = 0x0100 ∧ OV9282_MODE_STANDBY = 0x00 ∧
    OV9282_MODE_STREAMING = 0x01 ∧ OV9282_REG_LPFR = 0x380e ∧
    OV9282_REG_ID = 0x300a ∧ OV9282_REG_EXPOSURE = 0x3500 ∧
    OV9282_REG_AGAIN = 0x3509 ∧ OV9282_AGAIN_MIN = 0x10 ∧
    OV9282_AGAIN_MAX = 0xff ∧ OV9282_REG_HOLD = 0x3308 ∧
    ∀ a : Nat, valid_addr a = true ↔ (0x00 ≤ a ∧ a ≤ 0xfffff) := by
  refine ⟨rfl, rfl, rfl, rfl, rfl, rfl, rfl, rfl, rfl, rfl, ?_⟩
  intro a
  simp [valid_addr, OV9282_REG_MIN, OV9282_REG_MAX]

/-- C7: every mode in the catalog satisfies
vblank_min ≤ vblank_default ≤ vblank_max; the single supported 1280x720
mode has vblank_min = 151, default vblank = 1022, vblank_max = 51540. -/
theorem C7_vblank_bounds_ordered (M : ov9282_mode) (hM : M ∈ mode_catalog) :
    (M.vblank_min ≤ M.vblank ∧ M.vblank ≤ M.vblank_max) ∧
    M.width = 1280 ∧ M.height = 720 ∧
    M.vblank_min = 151 ∧ M.vblank = 1022 ∧ M.vblank_max = 51540 := by
  have h : M = supported_mode := by simpa [mode_catalog] using hM
  subst h
  refine ⟨⟨?_, ?_⟩, rfl, rfl, rfl, rfl, rfl⟩ <;> decide

/-- C7 witness: the supported mode is in the catalog and its vblank bounds
are ordered as 151 ≤ 1022 ≤ 51540. -/
theorem C7_witness :
    supported_mode ∈ mode_catalog ∧
    supported_mode.vblank_min ≤ supported_mode.vblank ∧
    supported_mode.vblank ≤ supported_mode.vblank_max ∧
    supported_mode.vblank_min = 151 ∧ supported_mode.vblank = 1022 ∧
    supported_mode.vblank_max = 51540 := by
  have hmem : supported_mode ∈ mode_catalog := by simp [mode_catalog]
  have h := C7_vblank_bounds_ordered supported_mode hmem
  exact ⟨hmem, h.1.1, h.1.2, h.2.2.2.1, h.2.2.2.2.1, h.2.2.2.2.2⟩

/-- C8: ov9282_power_off, from any prior state and whatever the
best-effort clock-teardown outcome, leaves the device Off with the clock
disabled and returns success (0) unconditionally. -/
theorem C8_power_off_always_succeeds (s : PowerState) (clk_off_ok : Bool) :
    (ov9282_power_off s clk_off_ok).state = PowerState.Off ∧
    (ov9282_power_off s clk_off_ok).clk_enabled = false ∧
    (ov9282_power_off s clk_off_ok).ret = 0 :=
  ⟨rfl, rfl, rfl⟩

/-- C9: the compile-time defaults are mutually consistent:
OV9282_EXPOSURE_DEFAULT = 0x0282 = 642 lies in
[OV9282_EXPOSURE_MIN, supported_mode.vblank - OV9282_EXPOSURE_OFFSET]
= [1, 1010], and OV9282_AGAIN_DEFAULT = 0x10 lies in
[OV9282_AGAIN_MIN, OV9282_AGAIN_MAX] = [0x10, 0xff]. -/
theorem C9_defaults_consistent :
    OV9282_EXPOSURE_DEFAULT = 642 ∧
    OV9282_EXPOSURE_MIN = 1 ∧
    OV9282_EXPOSURE_MIN ≤ OV9282_EXPOSURE_DEFAULT ∧
    supported_mode.vblank - OV9282_EXPOSURE_OFFSET = 1010 ∧
    OV9282_EXPOSURE_DEFAULT ≤ supported_mode.vblank - OV9282_EXPOSURE_OFFSET ∧
    OV9282_AGAIN_MIN ≤ OV9282_AGAIN_DEFAULT ∧
    OV9282_AGAIN_DEFAULT ≤ OV9282_AGAIN_MAX := by
  refine ⟨rfl, rfl, ?_, ?_, ?_, ?_, ?_⟩ <;> decide

/-- C10: the state established by ov9282_probe (src/duzenle.c lines
290-292) before control initialization points cur_mode at the single
supported mode and sets vblank to that mode's default, which lies within
[cur_mode.vblank_min, cur_mode.vblank_max]: the vblank-in-bounds invariant
holds from creation. -/
theorem C10_probe_init_invariant :
    probe_init_state.cur_mode = supported_mode ∧
    probe_init_state.vblank = supported_mode.vblank ∧
    vblank_in_bounds probe_init_state := by
  refine ⟨rfl, rfl, ?_, ?_⟩ <;> decide

/-- C5: ov9282_power_on performs exactly, in strict order, a settle delay,
the clock enable, and a second settle delay; in every run where the clock
enable fails (nonzero clk_ret, the only fallible step) the state remains
Off, the nonzero error of the failed step is returned, the second settle
delay is not performed, and no partial clock state is left enabled. -/
theorem C5_power_on_sequence (clk_ret : Int) :
    ((ov9282_power_on 0).actions =
        [PowerAction.settle_delay, PowerAction.clk_enable,
         PowerAction.settle_delay] ∧
      (ov9282_power_on 0).ret = 0 ∧
      (ov9282_power_on 0).state = PowerState.PoweredUnverified ∧
      (ov9282_power_on 0).clk_enabled = true) ∧
    (clk_ret ≠ 0 →
      (ov9282_power_on clk_ret).state = PowerState.Off ∧
      (ov9282_power_on clk_ret).ret = clk_ret ∧
      (ov9282_power_on clk_ret).ret ≠ 0 ∧
      (ov9282_power_on clk_ret).clk_enabled = false ∧
      (ov9282_power_on clk_ret).actions =
        [PowerAction.settle_delay, PowerAction.clk_enable]) := by
  refine ⟨⟨rfl, rfl, rfl, rfl⟩, ?_⟩
  intro h
  simp [ov9282_power_on, h]

/-- C5 witness: a run where clk_prepare_enable fails with -22 (-EINVAL)
leaves the state Off, returns -22, leaves the clock disabled and skips the
second settle delay. -/
theorem C5_witness :
    (-22 : Int) ≠ 0 ∧
    (ov9282_power_on (-22)).state = PowerState.Off ∧
    (ov9282_power_on (-22)).ret = -22 ∧
    (ov9282_power_on (-22)).clk_enabled = false ∧
    (ov9282_power_on (-22)).actions =
      [PowerAction.settle_delay, PowerAction.clk_enable] := by
  have h := (C5_power_on_sequence (-22)).2 (by decide)
  exact ⟨by decide, h.1, h.2.1, h.2.2.2.1, h.2.2.2.2⟩

/-- C6: for every identity value read that differs from the expected
constant OV9282_ID = 0x9281, detect_and_verify returns IdentityMismatch
carrying expected 0x9281 and the actual value, and the power state remains
PoweredUnverified (it never reaches PoweredVerified). -/
theorem C6_identity_mismatch (actual : Nat) (h : actual ≠ 0x9281) :
    OV9282_ID = 0x9281 ∧
    (detect_and_verify actual).2 =
      Except.error (SensorErr.IdentityMismatch 0x9281 actual) ∧
    (detect_and_verify actual).1 = PowerState.PoweredUnverified ∧
    (detect_and_verify actual).1 ≠ PowerState.PoweredVerified := by
  refine ⟨rfl, ?_, ?_, ?_⟩ <;> simp [detect_and_verify, OV9282_ID, h]

/-- C6 witness: reading 0x9999 from the identity register yields
IdentityMismatch{expected = 0x9281, actual = 0x9999} with the state still
PoweredUnverified. -/
theorem C6_witness :
    (0x9999 : Nat) ≠ 0x9281 ∧
    (detect_and_verify 0x9999).2 =
      Except.error (SensorErr.IdentityMismatch 0x9281 0x9999) ∧
    (detect_and_verify 0x9999).1 = PowerState.PoweredUnverified := by
  have h := C6_identity_mismatch 0x9999 (by decide)
  exact ⟨by decide, h.2.1, h.2.2.1⟩

/-- C4: for every sensor state and vblank value V within the active mode's
vblank range, setting vblank to V succeeds and the exposure range becomes
[OV9282_EXPOSURE_MIN, V - OV9282_EXPOSURE_OFFSET]; setting exposure to any
value e above that maximum succeeds (never errors) and clamps the cached
exposure to exactly the maximum. -/
theorem C4_exposure_range_tracks_vblank (s : SensorState) (v e : Nat)
    (h1 : s.cur_mode.vblank_min ≤ v) (h2 : v ≤ s.cur_mode.vblank_max)
    (he : v - OV9282_EXPOSURE_OFFSET < e) :
    ∃ s', set_vblank s v = Except.ok s' ∧
      exposure_range s' = (OV9282_EXPOSURE_MIN, v - OV9282_EXPOSURE_OFFSET) ∧
      (∀ e2 : Nat, ∃ s2, set_exposure s' e2 = Except.ok s2) ∧
      set_exposure s' e =
        Except.ok { s' with exposure := v - OV9282_EXPOSURE_OFFSET } := by
  refine ⟨{ s with vblank := v, exposure := min s.exposure (exposure_max v) },
    ?_, ?_, ?_, ?_⟩
  · simp [set_vblank, h1, h2]
  · simp [exposure_range, exposure_max]
  · intro e2; exact ⟨_, rfl⟩
  · simp only [set_exposure, exposure_max, Except.ok.injEq, SensorState.mk.injEq,
      true_and, and_true]
    simp only [OV9282_EXPOSURE_OFFSET, OV9282_EXPOSURE_MIN] at he ⊢
    omega

/-- C4 witness: from the probe-time state (vblank range [151, 51540]),
setting vblank to 1000 succeeds, the exposure range becomes [1, 988], and
requesting exposure 2000 clamps to 988 without error. -/
theorem C4_witness :
    probe_init_state.cur_mode.vblank_min ≤ 1000 ∧
    1000 ≤ probe_init_state.cur_mode.vblank_max ∧
    1000 - OV9282_EXPOSURE_OFFSET < 2000 ∧
    ∃ s', set_vblank probe_init_state 1000 = Except.ok s' ∧
      exposure_range s' = (OV9282_EXPOSURE_MIN, 1000 - OV9282_EXPOSURE_OFFSET) ∧
      (∀ e2 : Nat, ∃ s2, set_exposure s' e2 = Except.ok s2) ∧
      set_exposure s' 2000 =
        Except.ok { s' with exposure := 1000 - OV9282_EXPOSURE_OFFSET } := by
  have h := C4_exposure_range_tracks_vblank probe_init_state 1000 2000
    (by decide) (by decide) (by decide)
  exact ⟨by decide, by decide, by decide, h⟩

/-- Helper for C1: if the first failing attempt among the entries handled
from attempt index k onward is the i-th of those entries, the burst
attempts exactly the first i+1 of them, in order, and stops with
PartialBurstFailure{last_good_index = k + i - 1}. -/
theorem write_burst_from_first_failure (fails : Nat → Bool) :
    ∀ (entries : List ov9282_reg) (k i : Nat), i < entries.length →
      (∀ j, j < i → fails (k + j) = false) → fails (k + i) = true →
      write_burst_from fails k entries =
        (entries.take (i + 1),
         Except.error (SensorErr.PartialBurstFailure ((k : Int) + i - 1))) := by
  intro entries
  induction entries with
  | nil => intro k i hi _ _; simp at hi
  | cons e rest ih =>
    intro k i hi hprev hfail
    cases i with
    | zero =>
      have hk : fails k = true := by simpa using hfail
      simp [write_burst_from, hk]
    | succ i' =>
      have hk : fails k = false := by simpa using hprev 0 (Nat.succ_pos i')
      have hprev' : ∀ j, j < i' → fails (k + 1 + j) = false := by
        intro j hj
        have := hprev (j + 1) (Nat.succ_lt_succ hj)
        simpa [Nat.add_assoc, Nat.add_comm 1 j] using this
      have hfail' : fails (k + 1 + i') = true := by
        simpa [Nat.add_assoc, Nat.add_comm 1 i'] using hfail
      have hi' : i' < rest.length := by simpa using Nat.lt_of_succ_lt_succ hi
      have hrec := ih (k + 1) i' hi' hprev' hfail'
      have hidx : ((k + 1 : Nat) : Int) + (i' : Nat) - 1 =
          ((k : Nat) : Int) + ((i' + 1 : Nat) : Int) - 1 := by
        push_cast
        ring
      simp only [write_burst_from, hk, Bool.false_eq_true, if_false, hrec,
        List.take_succ_cons, hidx]

/-- C1: write_burst applies entries strictly in their list order; when the
first failing attempt is at index i, it attempts exactly the entries up to
and including index i (never any later entry) and returns
PartialBurstFailure{last_good_index = i - 1}. -/
theorem C1_write_burst_stops_at_first_failure (fails : Nat → Bool)
    (entries : List ov9282_reg) (i : Nat) (hi : i < entries.length)
    (hprev : ∀ j, j < i → fails j = false) (hfail : fails i = true) :
    (write_burst fails entries).2 =
      Except.error (SensorErr.PartialBurstFailure ((i : Int) - 1)) ∧
    (write_burst fails entries).1 = entries.take (i + 1) := by
  have h := write_burst_from_first_failure fails entries 0 i hi
    (by simpa using hprev) (by simpa using hfail)
  rw [write_burst, h]
  constructor
  · simp
  · rfl

/-- C1 witness: a three-entry burst whose second write attempt fails
yields PartialBurstFailure{last_good_index = 0}, with exactly the first
two entries attempted and the third never attempted. -/
theorem C1_witness :
    (1 : Nat) < ([ov9282_reg.mk 0x3500 0x10, ov9282_reg.mk 0x3501 0x20,
        ov9282_reg.mk 0x3502 0x30] : List ov9282_reg).length ∧
    (write_burst (fun k => k == 1)
        [ov9282_reg.mk 0x3500 0x10, ov9282_reg.mk 0x3501 0x20,
         ov9282_reg.mk 0x3502 0x30]).2 =
      Except.error (SensorErr.PartialBurstFailure 0) ∧
    (write_burst (fun k => k == 1)
        [ov9282_reg.mk 0x3500 0x10, ov9282_reg.mk 0x3501 0x20,
         ov9282_reg.mk 0x3502 0x30]).1 =
      [ov9282_reg.mk 0x3500 0x10, ov9282_reg.mk 0x3501 0x20] := by
  have h := C1_write_burst_stops_at_first_failure (fun k => k == 1)
    [ov9282_reg.mk 0x3500 0x10, ov9282_reg.mk 0x3501 0x20,
     ov9282_reg.mk 0x3502 0x30] 1 (by decide)
    (by
      intro j hj
      have hj0 : j = 0 := Nat.lt_one_iff.mp hj
      simp [hj0])
    (by decide)
  exact ⟨by decide, by simpa using h.1, by simpa using h.2⟩

/-- C2: in every group-hold commit in which some write of the bracket
fails, the failure is reported as ControlCommitFailed and, before the
error is returned, the hold register is written 0 exactly once, as the
last write attempted on the bus (the hold is never left asserted). -/
theorem C2_group_hold_released_on_failure (fails : Nat → Bool)
    (exposure gain : Nat)
    (h : fails 0 = true ∨ fails 1 = true ∨ fails 2 = true ∨ fails 3 = true) :
    (group_hold_commit fails exposure gain).2 =
      Except.error SensorErr.ControlCommitFailed ∧
    hold_release_count (group_hold_commit fails exposure gain).1 = 1 ∧
    (group_hold_commit fails exposure gain).1.getLast? =
      some (OV9282_REG_HOLD, 0) := by
  cases hf0 : fails 0 <;> cases hf1 : fails 1 <;> cases hf2 : fails 2 <;>
    cases hf3 : fails 3 <;>
    simp_all [group_hold_commit, hold_release_count, List.filter,
      OV9282_REG_HOLD, OV9282_REG_EXPOSURE, OV9282_REG_AGAIN]

/-- C2 witness: a commit whose second write attempt (the exposure write)
fails reports ControlCommitFailed, and the bus trace ends with exactly one
hold-release write (0 to OV9282_REG_HOLD). -/
theorem C2_witness :
    ((fun k => k == 1) 0 = true ∨ (fun k => k == 1) 1 = true ∨
      (fun k => k == 1) 2 = true ∨ (fun k => k == 1) 3 = true) ∧
    (group_hold_commit (fun k => k == 1) 0x0282 0x10).2 =
      Except.error SensorErr.ControlCommitFailed ∧
    hold_release_count (group_hold_commit (fun k => k == 1) 0x0282 0x10).1 = 1 ∧
    (group_hold_commit (fun k => k == 1) 0x0282 0x10).1.getLast? =
      some (OV9282_REG_HOLD, 0) := by
  have h := C2_group_hold_released_on_failure (fun k => k == 1) 0x0282 0x10
    (by decide)
  exact ⟨by decide, h.1, h.2.1, h.2.2⟩

end OV9282
